import Mathlib

/-!
Verification of the AgriBridge backend (src/main.py, src/schemas.py) against its
design specification.

Shallow embedding notes:
* MongoDB documents are modelled as per-collection structures with `Option`
  fields, since documents are schemaless and a field may be absent.
  Prices and quantities are modelled as rationals.
* `database.py` is imported by `main.py` but is not part of the source tree;
  its two helpers (`get_documents`, `create_document`) and the module-level
  handle `db` are modelled from the spec (section 4.2 and the design notes),
  as marked on each definition below.
* Filters are Python dicts built key by key; they are modelled as association
  lists with insert-or-overwrite assignment (`dictSet`), which preserves the
  replacement behaviour of `filt["farmer_id"] = ...` in `list_products`.
* The aggregation pipelines are modelled stage by stage with MongoDB meaning:
  a field path on a missing field yields null (here `Option.none`), `$avg`
  and `$sum` over a field skip documents where the field is absent,
  `$sum: 1` counts every member, `$group` emits one row per distinct key
  (output order is unspecified by MongoDB; the model uses a deterministic
  dedup order, which is irrelevant after the `$sort` stage), `$sort` is
  modelled as a stable sort, and `$limit` rejects non-positive arguments
  with an error (MongoDB: the limit must be positive).
-/

deriving instance DecidableEq for Except

namespace AgriBridge

/-- A value a stored document field can take, as far as the filters of this
backend inspect it. -/
inductive FieldVal where
  | absent
  | vstr (s : String)
  | vbool (b : Bool)
deriving Repr, DecidableEq

/-- A filter clause: equality on a string, equality on a boolean, or the
membership operator used by the region lookup of `list_products`. -/
inductive Clause where
  | eqStr (v : String)
  | eqBool (v : Bool)
  | inStr (vs : List String)
deriving Repr, DecidableEq

/-- MongoDB matching of one document field against one clause. An absent
field matches neither a string nor a boolean equality, and `in` only
matches when the stored value is one of the listed strings. -/
def matchClause : FieldVal → Clause → Bool
  | .vstr s, .eqStr t => s = t
  | .vstr s, .inStr ts => ts.contains s
  | .vbool b, .eqBool c => b = c
  | _, _ => false

/-- A filter document: a Python dict from field name to clause, in insertion
order. -/
abbrev Filter := List (String × Clause)

/-- Python dict assignment `filt[k] = c`: overwrite in place when the key is
present, append otherwise. -/
def dictSet (filt : Filter) (k : String) (c : Clause) : Filter :=
  if filt.any (fun kv => kv.1 = k) then
    filt.map (fun kv => if kv.1 = k then (k, c) else kv)
  else filt ++ [(k, c)]

/-- The pattern `if param: filt[key] = param` used by every list endpoint:
`None` and the empty string are falsy in Python, so they contribute no
clause. -/
def addStrEq (filt : Filter) (key : String) : Option String → Filter
  | none => filt
  | some s => if s = "" then filt else dictSet filt key (.eqStr s)

/-- A document matches a filter when it matches every clause. -/
def matchesFilter (getF : α → String → FieldVal) (d : α) (filt : Filter) : Bool :=
  filt.all (fun kc => matchClause (getF d kc.1) kc.2)

/-- Modelled from the spec: `get_documents` lives in `database.py`, which is
absent from the source tree. Spec 4.2: a filtered scan returning all matching
documents in the natural (insertion) order of the collection; an empty filter
matches all documents. -/
def get_documents (getF : α → String → FieldVal) (coll : List α) (filt : Filter) : List α :=
  coll.filter (fun d => matchesFilter getF d filt)

/-- A stored farmer document. `oid` stands for the Mongo `_id`, which
`list_products` renders with `str`; it is modelled directly as that string. -/
structure FarmerDoc where
  oid : String
  name : Option String := none
  phone : Option String := none
  region : Option String := none
deriving Repr, DecidableEq

def FarmerDoc.getField (d : FarmerDoc) : String → FieldVal
  | "region" => match d.region with | some s => .vstr s | none => .absent
  | "name" => match d.name with | some s => .vstr s | none => .absent
  | "phone" => match d.phone with | some s => .vstr s | none => .absent
  | _ => .absent

/-- A stored buyer document. -/
structure BuyerDoc where
  name : Option String := none
  type : Option String := none
deriving Repr, DecidableEq

def BuyerDoc.getField (d : BuyerDoc) : String → FieldVal
  | "name" => match d.name with | some s => .vstr s | none => .absent
  | "type" => match d.type with | some s => .vstr s | none => .absent
  | _ => .absent

/-- A stored product document. -/
structure ProductDoc where
  farmer_id : Option String := none
  title : Option String := none
  category : Option String := none
  price : Option ℚ := none
  available_quantity : Option ℚ := none
deriving Repr, DecidableEq

def ProductDoc.getField (d : ProductDoc) : String → FieldVal
  | "farmer_id" => match d.farmer_id with | some s => .vstr s | none => .absent
  | "title" => match d.title with | some s => .vstr s | none => .absent
  | "category" => match d.category with | some s => .vstr s | none => .absent
  | _ => .absent

/-- A stored order item (embedded in an order document). -/
structure OrderItemDoc where
  product_id : Option String := none
  quantity : Option ℚ := none
deriving Repr, DecidableEq

/-- A stored order document. -/
structure OrderDoc where
  buyer_id : Option String := none
  status : Option String := none
  items : List OrderItemDoc := []
deriving Repr, DecidableEq

def OrderDoc.getField (d : OrderDoc) : String → FieldVal
  | "buyer_id" => match d.buyer_id with | some s => .vstr s | none => .absent
  | "status" => match d.status with | some s => .vstr s | none => .absent
  | _ => .absent

/-- A stored logistics route document. -/
structure RouteDoc where
  date : Option String := none
  cold_chain : Option Bool := none
deriving Repr, DecidableEq

def RouteDoc.getField (d : RouteDoc) : String → FieldVal
  | "date" => match d.date with | some s => .vstr s | none => .absent
  | "cold_chain" => match d.cold_chain with | some b => .vbool b | none => .absent
  | _ => .absent

/-- The collections of the store. Modelled from the spec for the shape of the
handle (`database.py` is absent): the five named collections, each an ordered
list of documents. -/
structure DBData where
  farmer : List FarmerDoc := []
  buyer : List BuyerDoc := []
  product : List ProductDoc := []
  order : List OrderDoc := []
  route : List RouteDoc := []
deriving Repr, DecidableEq

/-! ### List endpoints (`main.py` lines 80-166): filter builder plus scan -/

/-- `GET /api/farmers` (main.py lines 80-85). -/
def list_farmers (db : DBData) (region : Option String) : List FarmerDoc :=
  let filt := addStrEq [] "region" region
  get_documents FarmerDoc.getField db.farmer filt

/-- `GET /api/buyers` (main.py lines 95-100). -/
def list_buyers (db : DBData) (type : Option String) : List BuyerDoc :=
  let filt := addStrEq [] "type" type
  get_documents BuyerDoc.getField db.buyer filt

/-- The nested farmer-region lookup of `list_products` (main.py line 127):
`db["farmer"].find({"region": region})`, each resulting `_id` rendered with
`str` (already a string in the model). -/
def region_farmer_ids (db : DBData) (region : String) : List String :=
  (db.farmer.filter (fun f => f.region = some region)).map (fun f => f.oid)

/-- `GET /api/products` (main.py lines 114-129). A truthy `region` overwrites
any `farmer_id` clause with the membership clause. -/
def list_products (db : DBData) (farmer_id category region : Option String) :
    List ProductDoc :=
  let filt := addStrEq [] "farmer_id" farmer_id
  let filt := addStrEq filt "category" category
  let filt := match region with
    | none => filt
    | some r =>
      if r = "" then filt
      else dictSet filt "farmer_id" (.inStr (region_farmer_ids db r))
  get_documents ProductDoc.getField db.product filt

/-- `GET /api/orders` (main.py lines 139-149). -/
def list_orders (db : DBData) (buyer_id status : Option String) : List OrderDoc :=
  let filt := addStrEq [] "buyer_id" buyer_id
  let filt := addStrEq filt "status" status
  get_documents OrderDoc.getField db.order filt

/-- `GET /api/routes` (main.py lines 159-166). `cold_chain` is compared with
None, so `False` still contributes a clause, while `date` uses truthiness. -/
def list_routes (db : DBData) (date : Option String) (cold_chain : Option Bool) :
    List RouteDoc :=
  let filt := addStrEq [] "date" date
  let filt := match cold_chain with
    | none => filt
    | some b => dictSet filt "cold_chain" (.eqBool b)
  get_documents RouteDoc.getField db.route filt

/-! ### Entity validation (`schemas.py`): the pydantic field constraints -/

/-- A typed `Product` payload (schemas.py lines 41-53). Required string fields
are already typed; the numeric bounds are checked by `Product.validate`. -/
structure ProductInput where
  farmer_id : String
  title : String
  category : String
  price : ℚ
  unit : String
  available_quantity : ℚ
  photos : List String := []
  description : Option String := none
deriving Repr, DecidableEq

/-- Pydantic validation of a `Product` body: `price` has `ge=0` and
`available_quantity` has `ge=0` (schemas.py lines 49 and 51). The error names
the offending field and constraint. -/
def Product.validate (p : ProductInput) : Except String ProductInput :=
  if p.price < 0 then .error "price: greater than or equal to 0"
  else if p.available_quantity < 0 then
    .error "available_quantity: greater than or equal to 0"
  else .ok p

/-- A typed `OrderItem` payload (schemas.py lines 56-59). -/
structure OrderItemInput where
  product_id : String
  quantity : ℚ
  price : ℚ
deriving Repr, DecidableEq

/-- Pydantic validation of an `OrderItem`: `quantity` has `gt=0` and `price`
has `ge=0` (schemas.py lines 58-59). -/
def OrderItem.validate (it : OrderItemInput) : Except String OrderItemInput :=
  if it.quantity ≤ 0 then .error "quantity: greater than 0"
  else if it.price < 0 then .error "price: greater than or equal to 0"
  else .ok it

/-- A typed `Order` payload (schemas.py lines 62-72); only the parts the
claims touch are carried. -/
structure OrderInput where
  buyer_id : String
  items : List OrderItemInput
  status : String := "pending"
deriving Repr, DecidableEq

/-- Validation of the embedded item list: every item must pass
`OrderItem.validate`; the first failing item reports its error. -/
def validateItems : List OrderItemInput → Except String (List OrderItemInput)
  | [] => .ok []
  | it :: rest =>
    match OrderItem.validate it with
    | .error e => .error e
    | .ok v =>
      match validateItems rest with
      | .error e => .error e
      | .ok vs => .ok (v :: vs)

/-- Pydantic validation of an `Order` body: the body is valid when every
embedded item is. -/
def Order.validate (o : OrderInput) : Except String OrderInput :=
  match validateItems o.items with
  | .error e => .error e
  | .ok _ => .ok o

/-! ### Product creation (`main.py` lines 104-111) -/

/-- The vestigial existence check on main.py line 108. It evaluates
`db.client.get_default_database()` (which raises a ConfigurationError when the
connection URI names no default database) and otherwise BSON-encodes the
filter `{"_id": {"$eq": <the method object dict.__init__>}}`, which the bson
encoder rejects with InvalidDocument because a method object is not an
encodable type. Either way the line raises before `create_document` runs,
for every payload and every store content. -/
def vestigial_farmer_check : Except String Unit :=
  .error "InvalidDocument: cannot encode a method object"

/-- `POST /api/products` (main.py lines 104-111). `create_document` itself is
modelled from the spec (4.2: insert the document and return its generated
identifier as a string) since `database.py` is absent; with `db = None` the
subscript `db["farmer"]` raises a TypeError. -/
def create_product (db : Option DBData) (payload : ProductInput) :
    Except String (String × DBData) :=
  match db with
  | none => .error "TypeError: NoneType object is not subscriptable"
  | some d =>
    match vestigial_farmer_check with
    | .error e => .error e
    | .ok _ =>
      let doc : ProductDoc :=
        { farmer_id := some payload.farmer_id
          title := some payload.title
          category := some payload.category
          price := some payload.price
          available_quantity := some payload.available_quantity }
      .ok ("generated-id", { d with product := d.product ++ [doc] })

/-! ### Analytics (`main.py` lines 170-207) -/

/-- First-occurrence deduplication, used to model the set of distinct group
keys a `$group` stage emits (MongoDB does not specify the output order of
`$group`; the model fixes first-occurrence order, which is irrelevant after
the sort stages). `seen` accumulates the keys already emitted. -/
def uniqAux [DecidableEq α] (seen : List α) : List α → List α
  | [] => []
  | a :: l => if a ∈ seen then uniqAux seen l else a :: uniqAux (a :: seen) l

/-- The distinct values of a list, first occurrence first. -/
def uniqKeys [DecidableEq α] (l : List α) : List α := uniqAux [] l

/-- Output row of the pricing pipeline: the group key `_id` (the category, or
null for documents without one, modelled as `key`), `avg_price` (null when no
member has a price) and `count`. -/
structure PricingRow where
  key : Option String
  avg_price : Option ℚ
  count : Nat
deriving Repr, DecidableEq

/-- MongoDB `$avg` over the `price` fields of a group: absent fields are
skipped, and the average of an empty set is null. -/
def avgOpt (l : List ℚ) : Option ℚ :=
  match l with
  | [] => none
  | _ => some (l.sum / (l.length : ℚ))

/-- MongoDB BSON ordering on the `avg_price` sort key: null sorts before
every number. -/
def avgLE : Option ℚ → Option ℚ → Bool
  | none, _ => true
  | some _, none => false
  | some a, some b => a ≤ b

/-- The product documents the pricing pipeline aggregates after the optional
`$match` stage (main.py lines 174-175): a truthy `category` restricts to that
category first. -/
def pricingMatched (d : DBData) (category : Option String) : List ProductDoc :=
  match category with
  | none => d.product
  | some c => if c = "" then d.product else d.product.filter (fun p => p.category = some c)

/-- The `$group` stage of the pricing pipeline (main.py line 177): one row per
distinct `$category` value, with `$avg` of `$price` and `$sum: 1`. -/
def pricingRows (prods : List ProductDoc) : List PricingRow :=
  (uniqKeys (prods.map (fun p => p.category))).map (fun k =>
    { key := k
      avg_price := avgOpt ((prods.filter (fun p => p.category = k)).filterMap (fun p => p.price))
      count := (prods.filter (fun p => p.category = k)).length })

/-- The sort order of `$sort {avg_price: 1}`: ascending by `avg_price` in
BSON order (null first). -/
def priceOrd (a b : PricingRow) : Prop := avgLE a.avg_price b.avg_price = true

instance : DecidableRel priceOrd := fun a b =>
  inferInstanceAs (Decidable (avgLE a.avg_price b.avg_price = true))

instance : IsTotal PricingRow priceOrd where
  total a b := by
    unfold priceOrd avgLE
    rcases a.avg_price with _ | x <;> rcases b.avg_price with _ | y <;> simp
    exact le_total x y

instance : IsTrans PricingRow priceOrd where
  trans a b c := by
    unfold priceOrd avgLE
    rcases a.avg_price with _ | x <;> rcases b.avg_price with _ | y <;>
      rcases c.avg_price with _ | z <;> simp
    exact le_trans

/-- `GET /api/analytics/pricing` (main.py lines 170-181): optional match,
group, then `$sort {avg_price: 1}` modelled as a stable sort. The guard
`if db else []` is modelled from the spec on the nature of the handle: an
unavailable store yields `[]`. -/
def pricing_trends (db : Option DBData) (category : Option String) : List PricingRow :=
  match db with
  | none => []
  | some d => List.insertionSort priceOrd (pricingRows (pricingMatched d category))

/-- Output row of the demand pipeline: group key (`$items.product_id`),
occurrence count `orders` and summed quantity `qty`. -/
structure DemandRow where
  key : Option String
  orders : Nat
  qty : ℚ
deriving Repr, DecidableEq

/-- The `$unwind "$items"` stage (main.py line 190): one record per item of
every order, in collection and item order; orders with no items vanish. -/
def unwoundItems (d : DBData) : List OrderItemDoc :=
  (d.order.map (fun o => o.items)).flatten

/-- The `$group` stage of the demand pipeline (main.py line 191): group by
`$items.product_id`, `orders = $sum 1`, `qty = $sum $items.quantity`
(absent quantities are skipped by `$sum`). -/
def demandRows (items : List OrderItemDoc) : List DemandRow :=
  (uniqKeys (items.map (fun it => it.product_id))).map (fun k =>
    { key := k
      orders := (items.filter (fun it => it.product_id = k)).length
      qty := ((items.filter (fun it => it.product_id = k)).filterMap (fun it => it.quantity)).sum })

/-- The sort order of `$sort {orders: -1}`: descending by `orders`. -/
def demandOrd (a b : DemandRow) : Prop := b.orders ≤ a.orders

instance : DecidableRel demandOrd := fun a b =>
  inferInstanceAs (Decidable (b.orders ≤ a.orders))

instance : IsTotal DemandRow demandOrd where
  total a b := le_total b.orders a.orders

instance : IsTrans DemandRow demandOrd where
  trans _ _ _ h h' := le_trans h' h

/-- `GET /api/analytics/demand` (main.py lines 184-195): early return `[]`
when the store is unavailable, then unwind, group, `$sort {orders: -1}` and
`$limit limit`. MongoDB rejects a non-positive `$limit` argument with the
error `the limit must be positive`, so the aggregate call raises for
`limit ≤ 0`; this is modelled with `Except`. -/
def demand_forecast (db : Option DBData) (limit : Int) : Except String (List DemandRow) :=
  match db with
  | none => .ok []
  | some d =>
    if limit ≤ 0 then .error "the limit must be positive"
    else
      .ok ((List.insertionSort demandOrd (demandRows (unwoundItems d))).take limit.toNat)

/-- Output row of the supply pipeline: group key (category), summed
`available_quantity` and member count `items`. -/
structure SupplyRow where
  key : Option String
  available : ℚ
  items : Nat
deriving Repr, DecidableEq

/-- The `$group` stage of the supply pipeline (main.py line 204). -/
def supplyRows (prods : List ProductDoc) : List SupplyRow :=
  (uniqKeys (prods.map (fun p => p.category))).map (fun k =>
    { key := k
      available := ((prods.filter (fun p => p.category = k)).filterMap
        (fun p => p.available_quantity)).sum
      items := (prods.filter (fun p => p.category = k)).length })

/-- The sort order of `$sort {available: -1}`: descending by `available`. -/
def supplyOrd (a b : SupplyRow) : Prop := b.available ≤ a.available

instance : DecidableRel supplyOrd := fun a b =>
  inferInstanceAs (Decidable (b.available ≤ a.available))

instance : IsTotal SupplyRow supplyOrd where
  total a b := le_total b.available a.available

instance : IsTrans SupplyRow supplyOrd where
  trans _ _ _ h h' := le_trans h' h

/-- `GET /api/analytics/supply` (main.py lines 198-207): early return `[]`
when the store is unavailable, then group and `$sort {available: -1}`. -/
def supply_overview (db : Option DBData) : List SupplyRow :=
  match db with
  | none => []
  | some d => List.insertionSort supplyOrd (supplyRows d.product)

/-! ### Concrete store contents used by the claims -/

/-- The product collection of the pricing-trends example of the spec. -/
def pricingExampleDB : DBData :=
  { product := [
      { category := some "veg", price := some 10 },
      { category := some "veg", price := some 20 },
      { category := some "fruit", price := some 5 } ] }

/-- A product collection where one member of the veg group has no price. -/
def missingPriceDB : DBData :=
  { product := [
      { category := some "veg", price := some 10 },
      { category := some "veg" } ] }

/-- The order collection of the demand-forecast example of the spec. -/
def demandExampleDB : DBData :=
  { order := [
      { items := [ { product_id := some "p1", quantity := some 2 } ] },
      { items := [ { product_id := some "p1", quantity := some 1 } ] },
      { items := [ { product_id := some "p2", quantity := some 5 } ] } ] }

/-- A store with a product but no orders: the demand pipeline runs over an
empty collection. -/
def emptyOrdersDB : DBData :=
  { product := [ { category := some "veg", price := some 3 } ] }

/-- A store for the region-join witness: one farmer in region R and two
products, one of which references that farmer. -/
def regionWitnessDB : DBData :=
  { farmer := [ { oid := "f1", region := some "R" } ]
    product := [
      { farmer_id := some "f1", category := some "veg", price := some 1 },
      { farmer_id := some "f2", category := some "veg", price := some 2 } ] }

/-- A route collection with one cold-chain route and one without. -/
def routesDB : DBData :=
  { route := [
      { date := some "2024-01-01", cold_chain := some true },
      { date := some "2024-01-02", cold_chain := some false } ] }

/-- A mixed store used by the empty-parameter witness. -/
def mixedDB : DBData :=
  { farmer := [ { oid := "f1", region := some "R1" }, { oid := "f2", region := some "" } ]
    buyer := [ { name := some "b", type := some "retailer" } ]
    product := [ { farmer_id := some "f1", category := some "veg", price := some 1 } ]
    order := [ { buyer_id := some "b1", status := some "pending" } ] }

/-- A payload for the product-creation claim. -/
def sampleProduct : ProductInput :=
  { farmer_id := "missing-farmer", title := "Tomatoes", category := "Vegetables"
    price := 1, unit := "kg", available_quantity := 2 }

/-- A product payload with a negative price. -/
def badProduct : ProductInput :=
  { farmer_id := "f", title := "t", category := "c", price := -1, unit := "kg"
    available_quantity := 1 }

/-- A product payload with price zero and all other fields valid. -/
def zeroPriceProduct : ProductInput :=
  { farmer_id := "f", title := "t", category := "c", price := 0, unit := "kg"
    available_quantity := 0 }

/-- An order item with quantity zero. -/
def badItem : OrderItemInput := { product_id := "p", quantity := 0, price := 1 }

/-- An order containing an item with non-positive quantity. -/
def badOrder : OrderInput := { buyer_id := "b", items := [badItem] }

/-- The fruit group row of the pricing example. -/
def fruitRow : PricingRow := { key := some "fruit", avg_price := some 5, count := 1 }

/-- The top row of the demand example. -/
def p1Row : DemandRow := { key := some "p1", orders := 2, qty := 3 }

/-! ### Helper lemmas -/

theorem mem_uniqAux [DecidableEq α] (b : α) (seen l : List α) :
    b ∈ uniqAux seen l ↔ b ∈ l ∧ b ∉ seen := by
  induction l generalizing seen with
  | nil => simp [uniqAux]
  | cons a l ih =>
    by_cases h : a ∈ seen
    · rw [uniqAux, if_pos h, ih]
      constructor
      · exact fun ⟨hl, hs⟩ => ⟨List.mem_cons_of_mem a hl, hs⟩
      · rintro ⟨hl, hs⟩
        rcases List.mem_cons.mp hl with rfl | hl
        · exact absurd h hs
        · exact ⟨hl, hs⟩
    · rw [uniqAux, if_neg h]
      by_cases hba : b = a
      · subst hba
        simp [h]
      · simp only [List.mem_cons, hba, false_or]
        rw [ih]
        simp [hba]

theorem mem_uniqKeys [DecidableEq α] (b : α) (l : List α) :
    b ∈ uniqKeys l ↔ b ∈ l := by
  rw [uniqKeys, mem_uniqAux]
  simp

theorem pricingRows_mem (prods : List ProductDoc) (row : PricingRow)
    (h : row ∈ pricingRows prods) :
    row.count = (prods.filter (fun p => p.category = row.key)).length ∧
      row.avg_price =
        avgOpt ((prods.filter (fun p => p.category = row.key)).filterMap (fun p => p.price)) := by
  rcases List.mem_map.mp h with ⟨k, _, rfl⟩
  exact ⟨rfl, rfl⟩

theorem pricingRows_map_key (prods : List ProductDoc) :
    (pricingRows prods).map (fun r => r.key) = uniqKeys (prods.map (fun p => p.category)) := by
  rw [pricingRows, List.map_map]
  exact List.map_id _

theorem demandRows_mem (items : List OrderItemDoc) (row : DemandRow)
    (h : row ∈ demandRows items) :
    row.orders = (items.filter (fun it => it.product_id = row.key)).length ∧
      row.qty =
        ((items.filter (fun it => it.product_id = row.key)).filterMap (fun it => it.quantity)).sum := by
  rcases List.mem_map.mp h with ⟨k, _, rfl⟩
  exact ⟨rfl, rfl⟩

theorem matchClause_in_eq (p : ProductDoc) (ids : List String) :
    matchClause (ProductDoc.getField p "farmer_id") (.inStr ids) =
      (match p.farmer_id with
       | some s => ids.contains s
       | none => false) := by
  rcases hp : p.farmer_id with _ | s <;> simp [ProductDoc.getField, matchClause, hp]

/-! ### The claims -/

/-- C1: a truthy region parameter makes the filter builder resolve the
farmers with that region and replace any `farmer_id` equality filter with a
membership filter over the resolved identifiers: the result equals the
category-only listing restricted to products whose `farmer_id` is one of the
resolved identifiers, whatever `farmer_id` parameter was supplied; when no
farmer has the region the resolved set is empty and the listing is the empty
sequence, not an error. -/
theorem c1_region_membership_filter :
    (∀ (db : DBData) (fid cat : Option String) (r : String), r ≠ "" →
      list_products db fid cat (some r) =
        (list_products db none cat none).filter (fun p =>
          match p.farmer_id with
          | some s => (region_farmer_ids db r).contains s
          | none => false)) ∧
    (∀ (db : DBData) (fid cat : Option String) (r : String), r ≠ "" →
      region_farmer_ids db r = [] → list_products db fid cat (some r) = []) := by
  have part1 : ∀ (db : DBData) (fid cat : Option String) (r : String), r ≠ "" →
      list_products db fid cat (some r) =
        (list_products db none cat none).filter (fun p =>
          match p.farmer_id with
          | some s => (region_farmer_ids db r).contains s
          | none => false) := by
    intro db fid cat r hr
    rcases fid with _ | s <;> rcases cat with _ | c
    · simp only [list_products, addStrEq, dictSet, get_documents, if_neg hr]
      rw [List.filter_filter]
      apply List.filter_congr
      intro p _
      simp [matchesFilter, matchClause_in_eq]
    · by_cases hc : c = "" <;>
        simp only [list_products, addStrEq, dictSet, get_documents, if_neg hr, hc, if_pos,
          reduceIte] <;>
        rw [List.filter_filter] <;>
        apply List.filter_congr <;>
        intro p _ <;>
        simp [matchesFilter, matchClause_in_eq, Bool.and_comm]
    · by_cases hs : s = "" <;>
        simp only [list_products, addStrEq, dictSet, get_documents, if_neg hr, hs, if_pos,
          reduceIte] <;>
        rw [List.filter_filter] <;>
        apply List.filter_congr <;>
        intro p _ <;>
        simp [matchesFilter, matchClause_in_eq, Bool.and_comm]
    · by_cases hs : s = "" <;> by_cases hc : c = "" <;>
        simp only [list_products, addStrEq, dictSet, get_documents, if_neg hr, hs, hc, if_pos,
          reduceIte] <;>
        rw [List.filter_filter] <;>
        apply List.filter_congr <;>
        intro p _ <;>
        simp [matchesFilter, matchClause_in_eq, Bool.and_comm]
  refine ⟨part1, fun db fid cat r hr hids => ?_⟩
  rw [part1 db fid cat r hr]
  simp only [hids]
  apply List.filter_eq_nil_iff.mpr
  intro p _
  rcases hp : p.farmer_id with _ | s <;> simp [hp]

/-- Witness for C1 at the two-product store: the supplied farmer_id
parameter is replaced by the membership filter, and an unknown region yields
the empty sequence. -/
theorem c1_region_membership_filter_witness :
    list_products regionWitnessDB (some "f2") none (some "R") =
        (list_products regionWitnessDB none none none).filter (fun p =>
          match p.farmer_id with
          | some s => (region_farmer_ids regionWitnessDB "R").contains s
          | none => false) ∧
      list_products regionWitnessDB (some "f2") none (some "nowhere") = [] :=
  ⟨c1_region_membership_filter.1 regionWitnessDB (some "f2") none "R" (by decide),
    c1_region_membership_filter.2 regionWitnessDB (some "f2") none "nowhere" (by decide)
      (by with_unfolding_all decide)⟩

/-- C2: with no category parameter, the pricing-trends analytics groups the
products by category, computes for each group the arithmetic mean of the
present prices and the member count, and returns the groups sorted ascending
by mean price; on the spec example `[veg 10, veg 20, fruit 5]` it returns
`[fruit 5 x1, veg 15 x2]`. -/
theorem c2_pricing_trends :
    (∀ db : DBData, List.Sorted priceOrd (pricing_trends (some db) none)) ∧
    (∀ (db : DBData) (row : PricingRow), row ∈ pricing_trends (some db) none →
      row.count = (db.product.filter (fun p => p.category = row.key)).length ∧
        row.avg_price =
          avgOpt ((db.product.filter (fun p => p.category = row.key)).filterMap
            (fun p => p.price))) ∧
    (∀ db : DBData,
      List.Perm ((pricing_trends (some db) none).map (fun r => r.key))
        (uniqKeys (db.product.map (fun p => p.category)))) ∧
    pricing_trends (some pricingExampleDB) none =
      [ fruitRow,
        { key := some "veg", avg_price := some 15, count := 2 } ] := by
  refine ⟨fun db => ?_, fun db row h => ?_, fun db => ?_, by with_unfolding_all decide⟩
  · exact List.sorted_insertionSort priceOrd _
  · exact pricingRows_mem _ row
      ((List.perm_insertionSort priceOrd (pricingRows db.product)).mem_iff.mp h)
  · have h1 := (List.perm_insertionSort priceOrd (pricingRows db.product)).map
      (fun r => r.key)
    rw [pricingRows_map_key] at h1
    exact h1

/-- Witness for C2: the fruit row of the example store satisfies the group
characterisation. -/
theorem c2_pricing_trends_witness :
    fruitRow.count =
        (pricingExampleDB.product.filter (fun p => p.category = fruitRow.key)).length ∧
      fruitRow.avg_price =
        avgOpt ((pricingExampleDB.product.filter
          (fun p => p.category = fruitRow.key)).filterMap (fun p => p.price)) :=
  c2_pricing_trends.2.1 pricingExampleDB fruitRow (by with_unfolding_all decide)

/-- C3 counterexample: in a store whose veg group has one document with
price 10 and one without a price, the pipeline reports `count = 2` while only
one member document carries a price field, refuting the claim that the count
excludes documents without a price. -/
theorem c3_count_counterexample :
    pricing_trends (some missingPriceDB) none =
      [ { key := some "veg", avg_price := some 10, count := 2 } ] ∧
      (missingPriceDB.product.filter
        (fun p => p.category = some "veg" && p.price.isSome)).length = 1 ∧
      ¬ (∀ row ∈ pricing_trends (some missingPriceDB) none,
          row.count = (missingPriceDB.product.filter
            (fun p => p.category = row.key && p.price.isSome)).length) := by
  with_unfolding_all decide

/-- C3 amended: a document without a price is excluded from the mean (`$avg`
skips absent fields) but still counted, since the pipeline counts with
`$sum: 1`: for every group, `count` equals the total number of member
documents and `avg_price` is the mean of the prices that are present. -/
theorem c3_count_amended :
    ∀ (db : DBData) (cat : Option String) (row : PricingRow),
      row ∈ pricing_trends (some db) cat →
        row.count = ((pricingMatched db cat).filter (fun p => p.category = row.key)).length ∧
          row.avg_price =
            avgOpt (((pricingMatched db cat).filter (fun p => p.category = row.key)).filterMap
              (fun p => p.price)) := by
  intro db cat row h
  exact pricingRows_mem _ row
    ((List.perm_insertionSort priceOrd (pricingRows (pricingMatched db cat))).mem_iff.mp h)

/-- Witness for the amended C3 at the mixed-price store. -/
theorem c3_count_amended_witness :
    ({ key := some "veg", avg_price := some 10, count := 2 } : PricingRow).count =
        ((pricingMatched missingPriceDB none).filter
          (fun p => p.category = some "veg")).length ∧
      ({ key := some "veg", avg_price := some 10, count := 2 } : PricingRow).avg_price =
        avgOpt (((pricingMatched missingPriceDB none).filter
          (fun p => p.category = some "veg")).filterMap (fun p => p.price)) :=
  c3_count_amended missingPriceDB none
    { key := some "veg", avg_price := some 10, count := 2 } (by with_unfolding_all decide)

/-- C4: for every positive limit the demand forecast returns a sequence of at
most `limit` group rows sorted descending by `orders`, each row carrying the
occurrence count and summed quantity of its product over the flattened items;
on the spec example with limit 1 it returns exactly the row
`p1, orders 2, qty 3`. -/
theorem c4_demand_forecast :
    (∀ (db : DBData) (limit : Int), 1 ≤ limit →
      ∃ l, demand_forecast (some db) limit = .ok l ∧
        List.Sorted demandOrd l ∧
        l.length ≤ limit.toNat ∧
        ∀ row ∈ l,
          row.orders = ((unwoundItems db).filter (fun it => it.product_id = row.key)).length ∧
            row.qty = (((unwoundItems db).filter
              (fun it => it.product_id = row.key)).filterMap (fun it => it.quantity)).sum) ∧
    demand_forecast (some demandExampleDB) 1 = .ok [p1Row] := by
  refine ⟨fun db limit hl => ?_, by with_unfolding_all decide⟩
  refine ⟨(List.insertionSort demandOrd (demandRows (unwoundItems db))).take limit.toNat,
    ?_, ?_, List.length_take_le _ _, ?_⟩
  · rw [demand_forecast, if_neg (by omega)]
  · exact List.Pairwise.sublist (List.take_sublist _ _)
      (List.sorted_insertionSort demandOrd _)
  · intro row hrow
    exact demandRows_mem _ row
      ((List.perm_insertionSort demandOrd (demandRows (unwoundItems db))).mem_iff.mp
        (List.mem_of_mem_take hrow))

/-- Witness for C4 at the example store with limit 2. -/
theorem c4_demand_forecast_witness :
    ∃ l, demand_forecast (some demandExampleDB) 2 = .ok l ∧
      List.Sorted demandOrd l ∧
      l.length ≤ (2 : Int).toNat ∧
      ∀ row ∈ l,
        row.orders = ((unwoundItems demandExampleDB).filter
          (fun it => it.product_id = row.key)).length ∧
          row.qty = (((unwoundItems demandExampleDB).filter
            (fun it => it.product_id = row.key)).filterMap (fun it => it.quantity)).sum :=
  c4_demand_forecast.1 demandExampleDB 2 (by decide)

/-- C5 counterexample: with the store available, `limit = 0` makes the
`$limit` stage invalid, so the call errors instead of returning an empty
sequence. -/
theorem c5_limit_counterexample :
    demand_forecast (some {}) 0 = .error "the limit must be positive" ∧
      ¬ demand_forecast (some {}) 0 = .ok [] := by
  with_unfolding_all decide

/-- C5 amended: the demand forecast accepts every positive integer limit
without error; with the store available, `limit = 0` fails the aggregation
with the `$limit` validation error rather than returning an empty sequence
(only with the store unavailable does `limit = 0` yield an empty sequence,
because the guard returns before the pipeline runs). -/
theorem c5_limit_amended :
    (∀ (db : DBData) (limit : Int), 1 ≤ limit →
      ∃ l, demand_forecast (some db) limit = .ok l) ∧
    (∀ db : DBData, demand_forecast (some db) 0 = .error "the limit must be positive") ∧
    demand_forecast none 0 = .ok [] := by
  refine ⟨fun db limit hl => ?_, fun db => ?_, rfl⟩
  · exact ⟨(List.insertionSort demandOrd (demandRows (unwoundItems db))).take limit.toNat,
      by rw [demand_forecast, if_neg (by omega)]⟩
  · rw [demand_forecast, if_pos (by omega)]

/-- Witness for the amended C5 at limit 3. -/
theorem c5_limit_amended_witness :
    ∃ l, demand_forecast (some demandExampleDB) 3 = .ok l :=
  c5_limit_amended.1 demandExampleDB 3 (by decide)

/-- C7 counterexample: the demand forecast does not always degrade to an
empty sequence on an empty order collection: with the store available and
`limit = 0` the aggregation errors even though the order collection is
empty. -/
theorem c7_degrade_counterexample :
    emptyOrdersDB.order = [] ∧
      demand_forecast (some emptyOrdersDB) 0 = .error "the limit must be positive" ∧
      ¬ demand_forecast (some emptyOrdersDB) 0 = .ok [] := by
  with_unfolding_all decide

/-- C7 amended: pricing trends and supply overview return an empty sequence,
and never an error, when the store is unavailable or the product collection
is empty; the demand forecast returns an empty sequence when the store is
unavailable (any limit), and on an empty order collection for every positive
limit; with the store available and a non-positive limit it errors instead. -/
theorem c7_degrade_amended :
    (∀ cat : Option String, pricing_trends none cat = []) ∧
    (∀ (db : DBData) (cat : Option String), db.product = [] →
      pricing_trends (some db) cat = []) ∧
    supply_overview none = [] ∧
    (∀ db : DBData, db.product = [] → supply_overview (some db) = []) ∧
    (∀ limit : Int, demand_forecast none limit = .ok []) ∧
    (∀ (db : DBData) (limit : Int), db.order = [] → 1 ≤ limit →
      demand_forecast (some db) limit = .ok []) := by
  refine ⟨fun cat => rfl, fun db cat h => ?_, rfl, fun db h => ?_, fun limit => rfl,
    fun db limit h hl => ?_⟩
  · rw [pricing_trends]
    have hm : pricingMatched db cat = [] := by
      rcases cat with _ | c
      · simpa [pricingMatched] using h
      · by_cases hc : c = "" <;> simp [pricingMatched, hc, h]
    rw [hm]
    rfl
  · rw [supply_overview, h]
    rfl
  · rw [demand_forecast, if_neg (by omega), unwoundItems, h]
    simp [demandRows, uniqKeys, uniqAux, List.insertionSort]

/-- Witness for the amended C7: the empty-product store degrades to empty
analytics and the empty-order store with a positive limit yields an empty
forecast. -/
theorem c7_degrade_amended_witness :
    pricing_trends (some { order := demandExampleDB.order }) none = [] ∧
      supply_overview (some { order := demandExampleDB.order }) = [] ∧
      demand_forecast (some { product := emptyOrdersDB.product }) 5 = .ok [] :=
  ⟨c7_degrade_amended.2.1 { order := demandExampleDB.order } none rfl,
    c7_degrade_amended.2.2.2.1 { order := demandExampleDB.order } rfl,
    c7_degrade_amended.2.2.2.2.2 { product := emptyOrdersDB.product } 5 rfl (by decide)⟩

theorem validateItems_error (items : List OrderItemInput) (it : OrderItemInput)
    (hmem : it ∈ items) (hq : it.quantity ≤ 0) :
    ∃ e, validateItems items = .error e := by
  induction items with
  | nil => cases hmem
  | cons a l ih =>
    rcases List.mem_cons.mp hmem with rfl | hmem2
    · exact ⟨"quantity: greater than 0", by
        rw [validateItems, OrderItem.validate, if_pos hq]⟩
    · rcases hfa : OrderItem.validate a with e | v
      · exact ⟨e, by rw [validateItems, hfa]⟩
      · rcases ih hmem2 with ⟨e, he⟩
        exact ⟨e, by rw [validateItems, hfa, he]⟩

/-- C6: product creation fails validation whenever `price < 0` or
`available_quantity < 0`, succeeds when `price = 0` and the other bounds
hold; an order item with `quantity ≤ 0` fails validation, and so does any
order containing such an item. -/
theorem c6_validation_bounds :
    (∀ p : ProductInput, p.price < 0 ∨ p.available_quantity < 0 →
      ∃ e, Product.validate p = .error e) ∧
    (∀ p : ProductInput, p.price = 0 → 0 ≤ p.available_quantity →
      Product.validate p = .ok p) ∧
    (∀ it : OrderItemInput, it.quantity ≤ 0 → ∃ e, OrderItem.validate it = .error e) ∧
    (∀ o : OrderInput, (∃ it ∈ o.items, it.quantity ≤ 0) →
      ∃ e, Order.validate o = .error e) := by
  refine ⟨fun p h => ?_, fun p hp hq => ?_, fun it hq => ?_, fun o h => ?_⟩
  · by_cases hp : p.price < 0
    · exact ⟨"price: greater than or equal to 0", by rw [Product.validate, if_pos hp]⟩
    · have hq : p.available_quantity < 0 := h.resolve_left hp
      exact ⟨"available_quantity: greater than or equal to 0", by
        rw [Product.validate, if_neg hp, if_pos hq]⟩
  · rw [Product.validate, if_neg (by rw [hp]; exact lt_irrefl 0), if_neg (not_lt.mpr hq)]
  · exact ⟨"quantity: greater than 0", by rw [OrderItem.validate, if_pos hq]⟩
  · rcases h with ⟨it, hmem, hq⟩
    rcases validateItems_error o.items it hmem hq with ⟨e, he⟩
    exact ⟨e, by rw [Order.validate, he]⟩

/-- Witness for C6 at concrete payloads. -/
theorem c6_validation_bounds_witness :
    (∃ e, Product.validate badProduct = .error e) ∧
      Product.validate zeroPriceProduct = .ok zeroPriceProduct ∧
      (∃ e, OrderItem.validate badItem = .error e) ∧
      (∃ e, Order.validate badOrder = .error e) :=
  ⟨c6_validation_bounds.1 badProduct (Or.inl (by norm_num [badProduct])),
    c6_validation_bounds.2.1 zeroPriceProduct rfl (le_refl 0),
    c6_validation_bounds.2.2.1 badItem (le_refl 0),
    c6_validation_bounds.2.2.2 badOrder ⟨badItem, List.mem_singleton.mpr rfl, le_refl 0⟩⟩

/-- C8: listing routes with `cold_chain` unset applies no cold-chain clause
and returns every route, while `cold_chain = false` explicitly keeps only the
routes whose `cold_chain` field is exactly `false`; the two calls differ on a
store holding one cold-chain route and one without. -/
theorem c8_cold_chain_filter :
    (∀ db : DBData, list_routes db none none = db.route) ∧
    (∀ db : DBData, list_routes db none (some false) =
      db.route.filter (fun rt => rt.cold_chain = some false)) ∧
    list_routes routesDB none none = routesDB.route ∧
    list_routes routesDB none (some false) =
      [ { date := some "2024-01-02", cold_chain := some false } ] := by
  refine ⟨fun db => ?_, fun db => ?_, by with_unfolding_all decide,
    by with_unfolding_all decide⟩
  · simp [list_routes, addStrEq, get_documents, matchesFilter]
  · simp only [list_routes, addStrEq, dictSet, get_documents]
    apply List.filter_congr
    intro rt _
    rcases hc : rt.cold_chain with _ | b <;>
      simp [matchesFilter, matchClause, RouteDoc.getField, hc]

/-- C9: the vestigial farmer-existence check on main.py line 108 never
consults the farmer collection meaningfully, so the outcome of product
creation is identical whatever the farmer collection holds; but the line
itself raises for every payload (it BSON-encodes a method object after
calling `get_default_database`), so creation always surfaces an error
instead of inserting and returning an identifier. -/
theorem c9_create_product_vestigial :
    (∀ (d1 d2 : DBData) (p : ProductInput),
      create_product (some d1) p = create_product (some d2) p) ∧
    (∀ (db : Option DBData) (p : ProductInput), ∃ e, create_product db p = .error e) ∧
    create_product (some regionWitnessDB) sampleProduct =
      .error "InvalidDocument: cannot encode a method object" := by
  refine ⟨fun d1 d2 p => rfl, fun db p => ?_, rfl⟩
  rcases db with _ | d
  · exact ⟨"TypeError: NoneType object is not subscriptable", rfl⟩
  · exact ⟨"InvalidDocument: cannot encode a method object", rfl⟩

/-- C10: an empty-string query parameter is falsy in Python, so it
contributes no filter clause and each list endpoint behaves exactly as if
the parameter were omitted; in particular listing farmers with an empty
region returns every farmer. -/
theorem c10_empty_string_params :
    (∀ db : DBData, list_farmers db (some "") = list_farmers db none) ∧
    (∀ db : DBData, list_farmers db (some "") = db.farmer) ∧
    (∀ db : DBData, list_buyers db (some "") = list_buyers db none) ∧
    (∀ (db : DBData) (cat r : Option String),
      list_products db (some "") cat r = list_products db none cat r) ∧
    (∀ (db : DBData) (fid r : Option String),
      list_products db fid (some "") r = list_products db fid none r) ∧
    (∀ (db : DBData) (fid cat : Option String),
      list_products db fid cat (some "") = list_products db fid cat none) ∧
    (∀ (db : DBData) (st : Option String),
      list_orders db (some "") st = list_orders db none st) ∧
    (∀ (db : DBData) (bid : Option String),
      list_orders db bid (some "") = list_orders db bid none) ∧
    list_farmers mixedDB (some "") = mixedDB.farmer := by
  refine ⟨fun db => rfl, fun db => ?_, fun db => rfl, fun db cat r => rfl,
    fun db fid r => rfl, fun db fid cat => rfl, fun db st => rfl, fun db bid => rfl,
    by with_unfolding_all decide⟩
  simp [list_farmers, addStrEq, get_documents, matchesFilter]

end AgriBridge
